import Mathlib

/-!
Verification of the session / routing / bulk-resolution layer of the
Plateforme framework (`plateforme.core.database.sessions`,
`plateforme.core.proxy`, `plateforme.core.errors`).

The Python code is shallowly embedded: pure control flow becomes Lean
functions, the context-variable machinery becomes explicit state passing,
and every externally visible effect of a session scope (factory calls,
commit / flush / rollback / close / remove, context set / reset) is
recorded in an explicit event trace.  Exceptions are modelled by an
inductive `Exc` type; a raised exception carries its `__cause__` chain
head in the `Raised` record.
-/

set_option autoImplicit false

namespace Plateforme

/-! ### Engines and binds (`plateforme.core.database.engines` interface)

Only the shape used by `Session.get_bind` is needed: a sync `Engine`, an
`AsyncEngine` exposing its `sync_engine`, and connections. -/

/-- A synchronous engine handle. -/
structure Engine where
  eid : Nat
deriving DecidableEq, Repr

/-- An asynchronous engine handle; `sync_engine` is the paired sync engine,
as exposed by SQLAlchemy's `AsyncEngine.sync_engine`. -/
structure AsyncEngine where
  aid : Nat
  sync_engine : Engine
deriving DecidableEq, Repr

/-- An engine as returned by the routing manager: either sync or async. -/
inductive AnyEngine where
  | syncE (e : Engine)
  | asyncE (a : AsyncEngine)
deriving DecidableEq, Repr

/-- A `bind` in the sense of SQLAlchemy: a `Connection` or an `Engine`
(the sync `Session.get_bind` signature admits only sync binds). -/
inductive Bind where
  | connection (cid : Nat)
  | engine (e : Engine)
deriving DecidableEq, Repr

/-- The value space of what `Session.get_bind` could conceivably return;
the theorems show the `ofAsync` constructor is never produced. -/
inductive BindResult where
  | ofSync (b : Bind)
  | ofAsync (a : AsyncEngine)
deriving DecidableEq, Repr

/-- Whether a `BindResult` is a sync bind. -/
def BindResult.isSync : BindResult → Bool
  | .ofSync _ => true
  | .ofAsync _ => false

/-- The routing manager interface (`DatabaseManager` of
`plateforme.core.database.base`, the spec's EngineRouter): per resource
type, an optional read, write and default engine, for either concurrency
mode.  Its module is an external collaborator here; only the contract
`get_engine / get_read_engine / get_write_engine : resource -> asyncMode ->
Engine?` is used by `Session.get_bind`. -/
structure DatabaseManager where
  get_read_engine : Option Nat → Bool → Option AnyEngine
  get_write_engine : Option Nat → Bool → Option AnyEngine
  get_engine : Option Nat → Bool → Option AnyEngine

/-- The sync `Session` state consulted by `get_bind`
(`plateforme.core.database.sessions.Session`): the explicit `bind`, the
`routing` manager, the `proxy` back-pointer to an owning `AsyncSession`
(present exactly when the session serves as the sync delegate of an async
session), and SQLAlchemy's `_flushing` flag. -/
structure Session where
  bind : Option Bind
  routing : Option DatabaseManager
  proxy : Option Nat
  flushing : Bool

/-- Property `Session.async_mode`: whether the session is in async mode, i.e. has
an `AsyncSession` proxy attached. -/
def Session.async_mode (s : Session) : Bool :=
  s.proxy.isSome

/-- Unwrapping performed by `get_bind` on a routed engine: an
`AsyncEngine` contributes its `sync_engine`, a sync engine is returned
as-is. -/
def engineBind : AnyEngine → Bind
  | .syncE e => .engine e
  | .asyncE a => .engine a.sync_engine

/-- Method `Session.get_bind` (sessions.py lines 262-308).  `superBind` stands
for the result of the SQLAlchemy fallback `super().get_bind(...)`, an
external collaborator producing a sync bind. -/
def Session.get_bind (s : Session) (mapper : Option Nat) (superBind : Bind) :
    BindResult :=
  match s.bind with
  | some b => .ofSync b
  | none =>
    match s.routing with
    | some routing =>
      let resource := mapper
      let engine0 :=
        if s.flushing then
          routing.get_write_engine resource s.async_mode
        else
          routing.get_read_engine resource s.async_mode
      let engine :=
        match engine0 with
        | none => routing.get_engine resource s.async_mode
        | some e => some e
      match engine with
      | some e =>
        match e with
        | .asyncE a => .ofSync (.engine a.sync_engine)
        | .syncE e0 => .ofSync (.engine e0)
      | none => .ofSync superBind
    | none => .ofSync superBind

/-! ### Exceptions (`plateforme.core.errors` and Python builtins) -/

/-- The exception kinds that the sessions layer can raise or propagate. -/
inductive Exc where
  /-- `RuntimeError`: ambient session of the wrong concurrency mode. -/
  | runtimeTypeMismatch
  /-- `RuntimeError`: no ambient session available with `on_missing='raise'`. -/
  | runtimeNoSession
  /-- `SessionError`: no session factory available. -/
  | sessionErr
  /-- `UnboundLocalError` on reading an unassigned local variable. -/
  | unboundLocal (name : String)
  /-- `DatabaseError`: generic storage-operation failure. -/
  | databaseErr
  /-- `ValueError`. -/
  | valueErr
  /-- `AttributeError`. -/
  | attributeErr
  /-- An arbitrary exception raised by caller code inside a scope body. -/
  | userExc (n : Nat)
deriving DecidableEq, Repr

/-- A raised exception together with the head of its `__cause__` chain
(`raise X from E` sets `cause := some E`). -/
structure Raised where
  exc : Exc
  cause : Option Exc
deriving DecidableEq, Repr

/-! ### Session scope model (`session_manager` / `async_session_manager`)

The two context managers differ only in the concurrency mode they expect
of an ambient session and in the initialisation of the local `factory`
variable (the async variant initialises it to `None`; the sync variant
leaves it unassigned).  Both are modelled by one runner parametrised on
`isAsync`. -/

/-- Concurrency mode of a session object. -/
inductive SessKind where
  | syncS
  | asyncS
deriving DecidableEq, Repr

/-- The session kind produced or expected by the manager variant. -/
def kindOf (isAsync : Bool) : SessKind :=
  if isAsync then .asyncS else .syncS

/-- An ambient session as stored in the `SESSION_CONTEXT` context
variable: its concurrency mode and identity. -/
structure Amb where
  kind : SessKind
  sid : Nat
deriving DecidableEq, Repr

/-- A session factory: either a plain `sessionmaker` or a scoped
(`scoped_session` / `async_scoped_session`) factory. -/
inductive Factory where
  | plain (fid : Nat)
  | scoped (fid : Nat)
deriving DecidableEq, Repr

/-- Identity of the session produced by a factory call. -/
def Factory.sid : Factory → Nat
  | .plain i => i
  | .scoped i => i

/-- The slice of the current application visible to the managers:
`app.session` / `app.async_session`, the registered factory. -/
structure AppModel where
  sessionF : Option Factory
deriving DecidableEq, Repr

/-- The ambient execution context consulted by a manager:
`SESSION_CONTEXT` and `PLATEFORME_CONTEXT`. -/
structure Ctx where
  ambient : Option Amb
  app : Option AppModel

/-- The `on_missing` argument. -/
inductive OnMissing where
  | create
  | raiseM
deriving DecidableEq, Repr

/-- The `on_exit` argument (`None` is modelled by `Option OnExit`). -/
inductive OnExit where
  | commit
  | flush
  | rollback
deriving DecidableEq, Repr

/-- The keyword arguments of `session_manager` / `async_session_manager`
with their Python defaults. -/
structure Args where
  using_ : Option Factory := none
  new : Bool := false
  on_missing : OnMissing := .create
  on_exit : Option OnExit := none
  expire : Option Bool := none

/-- Outcome of the scope body (the code between entry and exit of the
`with` block): normal completion or an exception. -/
inductive BodyRes where
  | ok
  | raises (e : Exc)
deriving DecidableEq, Repr

/-- Observable events of one manager run, in program order. -/
inductive Event where
  /-- The factory was invoked to create a session. -/
  | factoryCall (f : Factory)
  /-- `SESSION_CONTEXT.set` published a session. -/
  | ctxSet (a : Amb)
  /-- `SESSION_CONTEXT.reset` restored the prior ambient value. -/
  | ctxReset (prior : Option Amb)
  /-- `session.commit(expire=...)` was invoked. -/
  | commitOp (sid : Nat) (expire : Option Bool)
  /-- `session.flush()` was invoked. -/
  | flushOp (sid : Nat)
  /-- `session.rollback()` was invoked. -/
  | rollbackOp (sid : Nat)
  /-- `session.close()` was invoked. -/
  | closeOp (sid : Nat)
  /-- `factory.remove()` was invoked on a scoped factory. -/
  | removeOp (f : Factory)
deriving DecidableEq, Repr

/-- Result of one manager run: the event trace, the outcome (`none` for a
normal return), the final ambient session, and the ambient value observed
by the body (`none` when the body was never entered). -/
structure RunResult where
  events : List Event
  outcome : Option Raised
  finalAmbient : Option Amb
  ambientAtBody : Option (Option Amb)
deriving DecidableEq, Repr

/-- The `finalize` helper nested in both managers: performs the `on_exit`
action.  `ferr` is the outcome of that action when one runs (`none` for
success); when `on_exit` is `None` nothing runs and nothing can fail. -/
def finalize (args : Args) (sid : Nat) (ferr : Option Exc) :
    List Event × Option Exc :=
  match args.on_exit with
  | some .commit => ([.commitOp sid args.expire], ferr)
  | some .flush => ([.flushOp sid], ferr)
  | some .rollback => ([.rollbackOp sid], ferr)
  | none => ([], none)

/-- Factory resolution (sessions.py lines 584-596 / 690-702): explicit
`using` first, else the application factory.  The async variant
initialises the local `factory` to `None`, so a missing application
yields `factory = None`; the sync variant declares `factory` without
assigning it, so reading it with no `using` and no application raises
`UnboundLocalError`. -/
def resolveFactory (isAsync : Bool) (using_ : Option Factory)
    (app : Option AppModel) : Except Exc (Option Factory) :=
  match using_ with
  | some f => .ok (some f)
  | none =>
    match app with
    | some a => .ok a.sessionF
    | none =>
      if isAsync then .ok none else .error (.unboundLocal "factory")

/-- The create-a-new-session path shared by both managers (sessions.py
lines 584-617 / 690-723): resolve a factory, create and publish the
session, run the body inside `try/except/else/finally`, and release on
every exit path. -/
def createPath (isAsync : Bool) (args : Args) (ctx : Ctx) (body : BodyRes)
    (ferr : Option Exc) : RunResult :=
  match resolveFactory isAsync args.using_ ctx.app with
  | .error e =>
    { events := [], outcome := some ⟨e, none⟩,
      finalAmbient := ctx.ambient, ambientAtBody := none }
  | .ok none =>
    { events := [], outcome := some ⟨.sessionErr, none⟩,
      finalAmbient := ctx.ambient, ambientAtBody := none }
  | .ok (some f) =>
    let sid := f.sid
    let amb : Amb := ⟨kindOf isAsync, sid⟩
    let entry : List Event := [.factoryCall f, .ctxSet amb]
    let (mid, outcome) :
        List Event × Option Raised :=
      match body with
      | .raises e => ([.rollbackOp sid], some ⟨.databaseErr, some e⟩)
      | .ok =>
        let (fevs, fe) := finalize args sid ferr
        (fevs, fe.map fun e0 => ⟨e0, none⟩)
    let release : List Event :=
      match f with
      | .scoped _ => [.removeOp f]
      | .plain _ => [.closeOp sid]
    { events := entry ++ mid ++ [.ctxReset ctx.ambient] ++ release,
      outcome := outcome,
      finalAmbient := ctx.ambient,
      ambientAtBody := some (some amb) }

/-- One run of `session_manager` (`isAsync = false`) or
`async_session_manager` (`isAsync = true`), sessions.py lines 514-617 and
620-723.  `body` is the outcome of the scope body, `ferr` the outcome of
the `on_exit` action when one runs. -/
def session_manager_run (isAsync : Bool) (args : Args) (ctx : Ctx)
    (body : BodyRes) (ferr : Option Exc) : RunResult :=
  if args.new = false then
    match ctx.ambient with
    | some a =>
      if a.kind = kindOf isAsync then
        match body with
        | .ok =>
          let (fevs, fe) := finalize args a.sid ferr
          { events := fevs, outcome := fe.map fun e0 => ⟨e0, none⟩,
            finalAmbient := ctx.ambient, ambientAtBody := some ctx.ambient }
        | .raises e =>
          { events := [], outcome := some ⟨e, none⟩,
            finalAmbient := ctx.ambient, ambientAtBody := some ctx.ambient }
      else
        { events := [], outcome := some ⟨.runtimeTypeMismatch, none⟩,
          finalAmbient := ctx.ambient, ambientAtBody := none }
    | none =>
      match args.on_missing with
      | .raiseM =>
        { events := [], outcome := some ⟨.runtimeNoSession, none⟩,
          finalAmbient := ctx.ambient, ambientAtBody := none }
      | .create => createPath isAsync args ctx body ferr
  else
    createPath isAsync args ctx body ferr

/-! ### `commit(expire=...)` and `set_expire_on_commit`

`Session.commit` / `AsyncSession.commit` delegate to the SQLAlchemy commit
(`super().commit()`, an external collaborator modelled as the state
transformer `inner`); the commit may raise, so its outcome is an
`Option Exc` next to the post-state. -/

/-- The slice of session state touched by the expire-on-commit override:
the `expire_on_commit` flag and an opaque payload standing for everything
else the inner commit may change. -/
structure SessState where
  expire_on_commit : Bool
  payload : Nat
deriving DecidableEq, Repr

/-- Utility `set_expire_on_commit` (sessions.py lines 728-752), specialised to an
explicitly supplied sync session: saves `expire_on_commit`, installs
`value`, runs the body, and restores the saved flag in a `finally` block
(so also when the body raises). -/
def set_expire_on_commit (value : Bool)
    (body : SessState → Option Exc × SessState) (s : SessState) :
    Option Exc × SessState :=
  let saved := s.expire_on_commit
  let s1 := { s with expire_on_commit := value }
  let (err, s2) := body s1
  (err, { s2 with expire_on_commit := saved })

/-- Methods `Session.commit` / `AsyncSession.commit` (sessions.py lines 151-163
and 337-349): with `expire = None` the parent commit runs directly on the
session's configured default; otherwise it runs inside
`set_expire_on_commit`. -/
def Session.commit (inner : SessState → Option Exc × SessState)
    (s : SessState) (expire : Option Bool) : Option Exc × SessState :=
  match expire with
  | none => inner s
  | some v => set_expire_on_commit v inner s

/-! ### Module-level import of `SessionError` (`plateforme.core.errors`)

sessions.py line 30 reads `from ..errors import DatabaseError,
SessionError`.  A `from`-import succeeds only for names the errors module
actually defines. -/

/-- The top-level names defined by `plateforme.core.errors`: its imports
(`Any`, `Literal`, `Self`, `URL`), `ERROR_CODES`, and its exception
classes, as written in errors.py. -/
def errorsModuleNames : List String :=
  ["Any", "Literal", "Self", "URL", "ERROR_CODES", "BaseError",
   "AuthenticationError", "DatabaseError", "SecurityError",
   "PlateformeError", "MissingDeferred"]

/-- The names sessions.py requests from the errors module (line 30). -/
def sessionsErrorsImport : List String :=
  ["DatabaseError", "SessionError"]

/-- Python `from module import a, b`: fails with `ImportError` naming the
first requested attribute the module does not define. -/
def importFrom (moduleNames requested : List String) :
    Except String Unit :=
  match requested.find? (fun n => !moduleNames.contains n) with
  | some missing => .error missing
  | none => .ok ()

/-! ### Bulk scope context management (`Session.bulk` /
`AsyncSession.bulk`) -/

/-- The state of a bulk registry object as far as the `bulk` context
manager is concerned: the `proxy_reference` option it was created with
and its ordered entries.  (The `Bulk` base class lives in
`plateforme.core.database.bulk`, outside these sources; the entries list
follows the spec's BulkRegistry: an ordered sequence of entry records.) -/
structure BulkState where
  proxy_reference : Bool
  entries : List Nat
deriving DecidableEq, Repr

/-- Result of one run of the `bulk` context manager. -/
structure BulkRunResult where
  ambientAtBody : Option BulkState
  err : Option Exc
  bulk : BulkState
  finalAmbient : Option BulkState
deriving DecidableEq, Repr

/-- One run of `Session.bulk` / `AsyncSession.bulk` (sessions.py lines
124-149 and 310-335): create a fresh bulk bound to the session, publish
it in `SESSION_BULK_CONTEXT`, yield it to the body (which may register
entries and may raise), and reset the context variable to its prior value
in a `finally` block.  `prior` is the ambient bulk before entry; `body`
transforms the yielded bulk and reports an optional exception. -/
def Session.bulk_run (proxy_reference : Bool) (prior : Option BulkState)
    (body : BulkState → Option Exc × BulkState) : BulkRunResult :=
  let bulk0 : BulkState := ⟨proxy_reference, []⟩
  let (err, bulk1) := body bulk0
  { ambientAtBody := some bulk0, err := err, bulk := bulk1,
    finalAmbient := prior }

/-! ### Proxy (`plateforme.core.proxy.Proxy`) and proxied bulk references -/

/-- Constant `MANAGED_ATTRS` (proxy.py lines 24-34): attribute names handled by
the proxy wrapper itself instead of being delegated to the target. -/
def MANAGED_ATTRS : List String :=
  ["__call__", "__config__", "__init__", "__new__", "__proxy__",
   "__proxy_getattr__", "__proxy_info__", "__proxy_target__",
   "__proxy_type__"]

/-- Object fields: an association list from attribute name to value. -/
abbrev Fields : Type :=
  List (String × Nat)

/-- Read an attribute from a field map. -/
def getField (fs : Fields) (name : String) : Option Nat :=
  (fs.find? (fun kv => kv.1 = name)).map (fun kv => kv.2)

/-- Write an attribute into a field map (update in place or append). -/
def setField (fs : Fields) (name : String) (v : Nat) : Fields :=
  match fs with
  | [] => [(name, v)]
  | kv :: rest =>
    if kv.1 = name then (name, v) :: rest
    else kv :: setField rest name v

/-- The instance arena: target objects are identified by their index
(Python object identity), so two proxies share an instance exactly when
they hold the same index. -/
abbrev Arena : Type :=
  List Fields

/-- A `Proxy` instance (proxy.py lines 159-254): `__proxy_info__`,
`__proxy_target__` (an object reference into the arena, or `None`), and
its configuration's `read_only` flag (`None` by default). -/
structure Proxy where
  proxy_info : Option Nat
  proxy_target : Option Nat
  read_only : Option Bool
deriving DecidableEq, Repr

/-- Accessor `Proxy.__proxy__` (proxy.py lines 185-189): the target object, or
`AttributeError` when the target is not set. -/
def Proxy.proxyRef (p : Proxy) : Except Exc Nat :=
  match p.proxy_target with
  | none => .error .attributeErr
  | some t => .ok t

/-- Outcome of an attribute read on a proxy. -/
inductive GetAttrResult where
  /-- A managed attribute, served by the wrapper object itself. -/
  | fromProxyObject
  /-- Delegated to the target object, producing a value. -/
  | delegated (v : Nat)
  /-- An exception was raised. -/
  | raised (e : Exc)
deriving DecidableEq, Repr

/-- Outcome of an attribute write on a proxy. -/
inductive SetAttrResult where
  /-- A managed attribute, written on the wrapper object itself. -/
  | onProxyObject
  /-- Delegated to the target object, producing an updated arena. -/
  | delegated (arena : Arena)
  /-- An exception was raised. -/
  | raised (e : Exc)
deriving DecidableEq, Repr

/-- Attribute read through a proxy (proxy.py `__getattribute__` /
`__getattr__`, lines 202-224): managed names are served by the wrapper;
other names are delegated to `getattr(self.__proxy__(), name)`; a missing
target or missing attribute raises `AttributeError`. -/
def Proxy.getattr (arena : Arena) (p : Proxy) (name : String) :
    GetAttrResult :=
  if MANAGED_ATTRS.contains name then
    .fromProxyObject
  else
    match p.proxyRef with
    | .error e => .raised e
    | .ok t =>
      match arena.get? t with
      | none => .raised .attributeErr
      | some fs =>
        match getField fs name with
        | some v => .delegated v
        | none => .raised .attributeErr

/-- Attribute write through a proxy (proxy.py `__setattr__`, lines
226-236): managed names are written on the wrapper; a truthy `read_only`
configuration raises `AttributeError`; other names are delegated to
`setattr(self.__proxy__(), name, value)`. -/
def Proxy.setattr (arena : Arena) (p : Proxy) (name : String) (v : Nat) :
    SetAttrResult :=
  if MANAGED_ATTRS.contains name then
    .onProxyObject
  else if p.read_only = some true then
    .raised .attributeErr
  else
    match p.proxyRef with
    | .error e => .raised e
    | .ok t =>
      match arena.get? t with
      | none => .raised .attributeErr
      | some fs => .delegated (arena.set t (setField fs name v))

/-- A resource identity: target resource type and identity key. -/
structure Ident where
  rtype : Nat
  key : Nat
deriving DecidableEq, Repr

/-- Modelled from the spec: the reference side of the BulkRegistry
(`plateforme.core.database.bulk.Bulk`, not among these sources).  Per the
spec's data model and design notes, references with proxying enabled
share "an indirection table keyed by resource identity, where each
reference holds an index into that table" (arena + index pattern); the
registry keeps the ordered reference entries. -/
structure BulkReg where
  proxy_reference : Bool
  table : List (Ident × Nat)
  arena : Arena
  refs : List (Ident × Proxy)
deriving DecidableEq, Repr

/-- The empty registry of a freshly opened bulk scope. -/
def BulkReg.empty (proxy_reference : Bool) : BulkReg :=
  ⟨proxy_reference, [], [], []⟩

/-- Modelled from the spec: registration of a resource reference in a
bulk scope (`plateforme.core.database.bulk`, not among these sources).
With proxying enabled the reference is "encapsulated with a proxy" whose
target is the single shared slot for its identity (the slot is created on
first sight of the identity); with proxying disabled each reference gets
its own fresh slot. -/
def registerReference (b : BulkReg) (i : Ident) : BulkReg × Proxy :=
  if b.proxy_reference then
    match b.table.find? (fun kv => kv.1 = i) with
    | some kv =>
      let p : Proxy := ⟨none, some kv.2, none⟩
      ({ b with refs := b.refs ++ [(i, p)] }, p)
    | none =>
      let idx := b.arena.length
      let p : Proxy := ⟨none, some idx, none⟩
      ({ b with table := b.table ++ [(i, idx)],
                arena := b.arena ++ [[]],
                refs := b.refs ++ [(i, p)] }, p)
  else
    let idx := b.arena.length
    let p : Proxy := ⟨none, some idx, none⟩
    ({ b with arena := b.arena ++ [[]],
              refs := b.refs ++ [(i, p)] }, p)

/-- Modelled from the spec: `resolve()` on the reference scope of a bulk
(`plateforme.core.database.bulk`, not among these sources).  "Resolving
an identity updates the single shared instance that every reference with
that identity points at": for each identity in the indirection table, the
row fetched from the database (`db`) overwrites that identity's shared
slot. -/
def resolveReferences (b : BulkReg) (db : Ident → Option Fields) :
    BulkReg :=
  { b with
    arena :=
      b.table.foldl
        (fun arena kv =>
          match db kv.1 with
          | some fs => arena.set kv.2 fs
          | none => arena)
        b.arena }

/-! ### Trace observations and specification-side helpers -/

/-- Whether an event is a commit invocation. -/
def isCommit : Event → Bool
  | .commitOp _ _ => true
  | _ => false

/-- Number of commit invocations in a trace. -/
def commitCount (evs : List Event) : Nat :=
  evs.countP isCommit

/-- Whether an event is a rollback invocation. -/
def isRollback : Event → Bool
  | .rollbackOp _ => true
  | _ => false

/-- Number of rollback invocations in a trace. -/
def rollbackCount (evs : List Event) : Nat :=
  evs.countP isRollback

/-- Whether an event releases a session (close or scoped removal). -/
def isRelease : Event → Bool
  | .closeOp _ => true
  | .removeOp _ => true
  | _ => false

/-- Number of session releases in a trace. -/
def releaseCount (evs : List Event) : Nat :=
  evs.countP isRelease

/-- The release event the manager owes for a session created from `f`:
scoped factories are recycled through `remove`, plain ones closed. -/
def releaseEvent : Factory → Event
  | .scoped i => .removeOp (.scoped i)
  | .plain i => .closeOp i

/-- The last two events of a trace. -/
def lastTwo (l : List Event) : List Event :=
  l.drop (l.length - 2)

/-- Which factory, if any, a manager run creates a session from: the
run takes the create path (because `new` is true, or no ambient session
exists and `on_missing` is `'create'`) and factory resolution succeeds. -/
def createdFactory (isAsync : Bool) (args : Args) (ctx : Ctx) :
    Option Factory :=
  let goCreate : Bool :=
    if args.new = false then
      match ctx.ambient with
      | some _ => false
      | none =>
        match args.on_missing with
        | .create => true
        | .raiseM => false
    else
      true
  if goCreate then
    match resolveFactory isAsync args.using_ ctx.app with
    | .ok (some f) => some f
    | _ => none
  else
    none

/-- The engine suggestion produced by the routing manager for one
`get_bind` call: the write engine while flushing, else the read engine,
falling back to the router default. -/
def routedEngine (r : DatabaseManager) (s : Session) (m : Option Nat) :
    Option AnyEngine :=
  match
    (if s.flushing then r.get_write_engine m s.async_mode
     else r.get_read_engine m s.async_mode) with
  | none => r.get_engine m s.async_mode
  | some e => some e

/-! ### Concrete instances used by the witness theorems -/

/-- A router with distinct read, write and default sync engines. -/
def routerRW : DatabaseManager where
  get_read_engine := fun _ _ => some (.syncE ⟨1⟩)
  get_write_engine := fun _ _ => some (.syncE ⟨2⟩)
  get_engine := fun _ _ => some (.syncE ⟨3⟩)

/-- A router whose read engine is an async engine. -/
def routerAF : DatabaseManager where
  get_read_engine := fun _ _ => some (.asyncE ⟨7, ⟨4⟩⟩)
  get_write_engine := fun _ _ => none
  get_engine := fun _ _ => none

/-- An inner commit that always raises after touching the payload. -/
def innerBoom : SessState → Option Exc × SessState :=
  fun t => (some (.userExc 1), { t with payload := t.payload + 1 })

/-- A one-row database for the bulk-resolution witness. -/
def dbOne : Ident → Option Fields :=
  fun j => if j = ⟨1, 42⟩ then some [("id", 42), ("status", 0)] else none

/-- Register the same identity twice in a freshly opened bulk scope with
`proxy_reference=True`: the resulting registry and the two reference
proxies handed back to the caller. -/
def twoRefs (i : Ident) : BulkReg × Proxy × Proxy :=
  let r1 := registerReference (BulkReg.empty true) i
  let r2 := registerReference r1.1 i
  (r2.1, r1.2, r2.2)

/-! ## Theorems -/

/-- When no explicit bind is set and a router is attached, `get_bind`
returns exactly the unwrapping of the router's engine suggestion,
falling back to the SQLAlchemy default bind when the router suggests
nothing. -/
theorem get_bind_routed (s : Session) (r : DatabaseManager)
    (m : Option Nat) (sb : Bind)
    (hb : s.bind = none) (hr : s.routing = some r) :
    Session.get_bind s m sb =
      (match routedEngine r s m with
       | some e =>
         match e with
         | .asyncE a => .ofSync (.engine a.sync_engine)
         | .syncE e0 => .ofSync (.engine e0)
       | none => .ofSync sb) := by
  simp only [Session.get_bind, hb, hr, routedEngine]

/-- C1: `Session.get_bind` returns an explicit bind unconditionally; with
a router attached it consults `get_write_engine` when flushing and
`get_read_engine` otherwise, then `get_engine`, and only when all yield
nothing (or no router is attached) falls back to the storage layer's own
default bind resolution; in particular with both a read and a write
engine configured, flushing binds to the write engine and anything else
to the read engine. -/
theorem C1_get_bind_routing_order
    (s : Session) (r : DatabaseManager) (m : Option Nat) (sb : Bind) :
    (∀ b, s.bind = some b → Session.get_bind s m sb = .ofSync b) ∧
    (s.bind = none → s.routing = some r →
      ((∀ e, s.flushing = true →
          r.get_write_engine m s.async_mode = some e →
          Session.get_bind s m sb = .ofSync (engineBind e)) ∧
       (∀ e, s.flushing = false →
          r.get_read_engine m s.async_mode = some e →
          Session.get_bind s m sb = .ofSync (engineBind e)) ∧
       (∀ e,
          (if s.flushing then r.get_write_engine m s.async_mode
           else r.get_read_engine m s.async_mode) = none →
          r.get_engine m s.async_mode = some e →
          Session.get_bind s m sb = .ofSync (engineBind e)) ∧
       ((if s.flushing then r.get_write_engine m s.async_mode
         else r.get_read_engine m s.async_mode) = none →
        r.get_engine m s.async_mode = none →
        Session.get_bind s m sb = .ofSync sb) ∧
       (∀ er ew, r.get_read_engine m s.async_mode = some er →
          r.get_write_engine m s.async_mode = some ew →
          Session.get_bind s m sb =
            .ofSync (engineBind (if s.flushing then ew else er))))) ∧
    (s.bind = none → s.routing = none →
      Session.get_bind s m sb = .ofSync sb) := by
  refine ⟨?_, ?_, ?_⟩
  · intro b hb
    simp [Session.get_bind, hb]
  · intro hb hr
    refine ⟨?_, ?_, ?_, ?_, ?_⟩
    · intro e hf hw
      rw [get_bind_routed s r m sb hb hr]
      cases e <;> simp [routedEngine, hf, hw, engineBind]
    · intro e hf hrd
      rw [get_bind_routed s r m sb hb hr]
      cases e <;> simp [routedEngine, hf, hrd, engineBind]
    · intro e hsel hd
      rw [get_bind_routed s r m sb hb hr]
      cases e <;> simp [routedEngine, hsel, hd, engineBind]
    · intro hsel hd
      rw [get_bind_routed s r m sb hb hr]
      simp [routedEngine, hsel, hd]
    · intro er ew hrd hw
      rw [get_bind_routed s r m sb hb hr]
      cases hflush : s.flushing
      · cases er <;> simp [routedEngine, hflush, hrd, engineBind]
      · cases ew <;> simp [routedEngine, hflush, hw, engineBind]
  · intro hb hr
    simp [Session.get_bind, hb, hr]

/-- Witness for C1: with a router configuring read engine 1 and write
engine 2 and no explicit bind, a flushing session binds to engine 2 and a
non-flushing one to engine 1. -/
theorem C1_get_bind_routing_order_witness :
    Session.get_bind ⟨none, some routerRW, none, true⟩ none (.connection 9) =
      .ofSync (.engine ⟨2⟩) ∧
    Session.get_bind ⟨none, some routerRW, none, false⟩ none (.connection 9) =
      .ofSync (.engine ⟨1⟩) := by
  constructor
  · simpa [engineBind] using
      ((C1_get_bind_routing_order ⟨none, some routerRW, none, true⟩
          routerRW none (.connection 9)).2.1 rfl rfl).2.2.2.2
        (.syncE ⟨1⟩) (.syncE ⟨2⟩) rfl rfl
  · simpa [engineBind] using
      ((C1_get_bind_routing_order ⟨none, some routerRW, none, false⟩
          routerRW none (.connection 9)).2.1 rfl rfl).2.2.2.2
        (.syncE ⟨1⟩) (.syncE ⟨2⟩) rfl rfl

/-- C10: whenever the routing manager returns an `AsyncEngine` (the
async-mode delegate case), the sync `Session.get_bind` returns that
engine's `sync_engine`; `Session.get_bind` never returns an `AsyncEngine`
to its caller. -/
theorem C10_get_bind_never_async
    (s : Session) (m : Option Nat) (sb : Bind) :
    (∀ r a, s.bind = none → s.routing = some r →
      routedEngine r s m = some (.asyncE a) →
      Session.get_bind s m sb = .ofSync (.engine a.sync_engine)) ∧
    (Session.get_bind s m sb).isSync = true := by
  constructor
  · intro r a hb hr hre
    rw [get_bind_routed s r m sb hb hr, hre]
  · cases hb : s.bind with
    | some b => simp [Session.get_bind, hb, BindResult.isSync]
    | none =>
      cases hr : s.routing with
      | none => simp [Session.get_bind, hb, hr, BindResult.isSync]
      | some r =>
        rw [get_bind_routed s r m sb hb hr]
        cases hre : routedEngine r s m with
        | none => simp [BindResult.isSync]
        | some e => cases e <;> simp [BindResult.isSync]

/-- Witness for C10: a non-flushing async-mode session whose router
serves async engine 7 (paired with sync engine 4) binds to sync
engine 4. -/
theorem C10_get_bind_never_async_witness :
    Session.get_bind ⟨none, some routerAF, some 3, false⟩ none
        (.connection 0) = .ofSync (.engine ⟨4⟩) :=
  (C10_get_bind_never_async ⟨none, some routerAF, some 3, false⟩ none
    (.connection 0)).1 routerAF ⟨7, ⟨4⟩⟩ rfl rfl rfl

/-- A run whose `createdFactory` is `some f` goes through the create
path, and its factory resolution yields exactly `f`. -/
theorem run_createPath (isAsync : Bool) (args : Args) (ctx : Ctx)
    (body : BodyRes) (ferr : Option Exc) (f : Factory)
    (hf : createdFactory isAsync args ctx = some f) :
    session_manager_run isAsync args ctx body ferr =
      createPath isAsync args ctx body ferr ∧
    resolveFactory isAsync args.using_ ctx.app = .ok (some f) := by
  unfold createdFactory at hf
  by_cases hnew : args.new = false
  · cases hamb : ctx.ambient with
    | some a =>
      rw [hamb] at hf
      simp [hnew] at hf
    | none =>
      rw [hamb] at hf
      cases om : args.on_missing with
      | raiseM =>
        rw [om] at hf
        simp [hnew] at hf
      | create =>
        rw [om] at hf
        simp only [hnew, if_true] at hf
        cases hres : resolveFactory isAsync args.using_ ctx.app with
        | error e0 =>
          rw [hres] at hf
          simp at hf
        | ok o =>
          cases o with
          | none =>
            rw [hres] at hf
            simp at hf
          | some f0 =>
            rw [hres] at hf
            simp at hf
            subst hf
            exact ⟨by simp [session_manager_run, hnew, hamb, om], rfl⟩
  · have hnew' : args.new = true := by
      revert hnew
      cases args.new <;> simp
    rw [hnew'] at hf
    simp only [Bool.true_eq_false, if_false] at hf
    cases hres : resolveFactory isAsync args.using_ ctx.app with
    | error e0 =>
      rw [hres] at hf
      simp at hf
    | ok o =>
      cases o with
      | none =>
        rw [hres] at hf
        simp at hf
      | some f0 =>
        rw [hres] at hf
        simp at hf
        subst hf
        exact ⟨by simp [session_manager_run, hnew'], rfl⟩

/-- C3: with `new=False`, `on_missing='raise'` and no ambient session,
both managers raise the configuration failure immediately: the outcome is
the `RuntimeError`, the trace is empty (no factory consulted, no factory
call, no session published), and the body never runs. -/
theorem C3_on_missing_raise (isAsync : Bool) (args : Args) (ctx : Ctx)
    (body : BodyRes) (ferr : Option Exc)
    (hnew : args.new = false) (hmiss : args.on_missing = .raiseM)
    (hamb : ctx.ambient = none) :
    (session_manager_run isAsync args ctx body ferr).outcome =
      some ⟨.runtimeNoSession, none⟩ ∧
    (session_manager_run isAsync args ctx body ferr).events = [] ∧
    (session_manager_run isAsync args ctx body ferr).ambientAtBody =
      none := by
  refine ⟨?_, ?_, ?_⟩ <;> simp [session_manager_run, hnew, hmiss, hamb]

/-- Witness for C3 at a concrete sync invocation. -/
theorem C3_on_missing_raise_witness :
    (session_manager_run false ⟨none, false, .raiseM, none, none⟩
        ⟨none, none⟩ .ok none).outcome =
      some ⟨.runtimeNoSession, none⟩ ∧
    (session_manager_run false ⟨none, false, .raiseM, none, none⟩
        ⟨none, none⟩ .ok none).events = [] ∧
    (session_manager_run false ⟨none, false, .raiseM, none, none⟩
        ⟨none, none⟩ .ok none).ambientAtBody = none :=
  C3_on_missing_raise false ⟨none, false, .raiseM, none, none⟩
    ⟨none, none⟩ .ok none rfl rfl rfl

/-- C2 counterexample: a sync scope that reuses the ambient session 5 and
whose body raises `userExc 7` does yield the session to the body, yet
propagates the exception unwrapped (not as a `DatabaseError` chaining it)
and never calls rollback. -/
theorem C2_counterexample :
    (session_manager_run false ⟨none, false, .create, none, none⟩
        ⟨some ⟨.syncS, 5⟩, none⟩ (.raises (.userExc 7)) none).ambientAtBody =
      some (some ⟨.syncS, 5⟩) ∧
    (session_manager_run false ⟨none, false, .create, none, none⟩
        ⟨some ⟨.syncS, 5⟩, none⟩ (.raises (.userExc 7)) none).outcome =
      some ⟨.userExc 7, none⟩ ∧
    (⟨Exc.userExc 7, none⟩ : Raised) ≠ ⟨.databaseErr, some (.userExc 7)⟩ ∧
    rollbackCount
      (session_manager_run false ⟨none, false, .create, none, none⟩
        ⟨some ⟨.syncS, 5⟩, none⟩ (.raises (.userExc 7)) none).events = 0 :=
  ⟨rfl, rfl, by decide, rfl⟩

/-- C2 (amended): when the scope created a new session from a factory and
the body raises `E`, rollback is called and the propagated failure is a
`DatabaseError` whose chained cause is exactly `E`; when the scope reused
an ambient session, `E` propagates unchanged and rollback is not
called. -/
theorem C2_rollback_and_wrap (isAsync : Bool) (args : Args) (ctx : Ctx)
    (e : Exc) (ferr : Option Exc) :
    (∀ f, createdFactory isAsync args ctx = some f →
      ((session_manager_run isAsync args ctx (.raises e) ferr).outcome =
          some ⟨.databaseErr, some e⟩ ∧
       Event.rollbackOp f.sid ∈
          (session_manager_run isAsync args ctx (.raises e) ferr).events)) ∧
    (∀ a, args.new = false → ctx.ambient = some a →
        a.kind = kindOf isAsync →
      ((session_manager_run isAsync args ctx (.raises e) ferr).outcome =
          some ⟨e, none⟩ ∧
       rollbackCount
         (session_manager_run isAsync args ctx (.raises e) ferr).events =
           0)) := by
  constructor
  · intro f hf
    obtain ⟨hrun, hres⟩ :=
      run_createPath isAsync args ctx (.raises e) ferr f hf
    rw [hrun]
    unfold createPath
    rw [hres]
    cases f <;> simp [Factory.sid]
  · intro a hnew hamb hk
    constructor <;> simp [session_manager_run, hnew, hamb, hk, rollbackCount]

/-- Witness for C2 (amended): a sync scope over a plain factory 4 with a
body raising `userExc 7` rolls session 4 back and propagates a
`DatabaseError` caused by `userExc 7`. -/
theorem C2_rollback_and_wrap_witness :
    (session_manager_run false ⟨some (.plain 4), false, .create, none, none⟩
        ⟨none, none⟩ (.raises (.userExc 7)) none).outcome =
      some ⟨.databaseErr, some (.userExc 7)⟩ ∧
    Event.rollbackOp 4 ∈
      (session_manager_run false ⟨some (.plain 4), false, .create, none, none⟩
        ⟨none, none⟩ (.raises (.userExc 7)) none).events :=
  (C2_rollback_and_wrap false ⟨some (.plain 4), false, .create, none, none⟩
    ⟨none, none⟩ (.userExc 7) none).1 (.plain 4) rfl

/-- C6: with `on_exit='commit'`, any run that yields a session to the
body commits exactly once when the body returns without error and zero
times when it raises — on the reuse path as well as the create path. -/
theorem C6_commit_exactly_once (isAsync : Bool) (args : Args) (ctx : Ctx)
    (body : BodyRes) (ferr : Option Exc)
    (hexit : args.on_exit = some .commit)
    (hbody : (session_manager_run isAsync args ctx body
        ferr).ambientAtBody.isSome = true) :
    commitCount (session_manager_run isAsync args ctx body ferr).events =
      (if body = .ok then 1 else 0) := by
  by_cases hnew : args.new = false
  · cases hamb : ctx.ambient with
    | some a =>
      by_cases hk : a.kind = kindOf isAsync
      · cases body with
        | ok =>
          simp [session_manager_run, hnew, hamb, hk, finalize, hexit,
            commitCount, isCommit]
        | raises e0 =>
          simp [session_manager_run, hnew, hamb, hk, commitCount]
      · rw [session_manager_run] at hbody
        simp [hnew, hamb, hk] at hbody
    | none =>
      cases om : args.on_missing with
      | raiseM =>
        rw [session_manager_run] at hbody
        simp [hnew, hamb, om] at hbody
      | create =>
        cases hres : resolveFactory isAsync args.using_ ctx.app with
        | error e0 =>
          rw [session_manager_run] at hbody
          simp [hnew, hamb, om, createPath, hres] at hbody
        | ok o =>
          cases o with
          | none =>
            rw [session_manager_run] at hbody
            simp [hnew, hamb, om, createPath, hres] at hbody
          | some f =>
            cases body with
            | ok =>
              cases f <;>
                simp [session_manager_run, hnew, hamb, om, createPath,
                  hres, finalize, hexit, commitCount, isCommit]
            | raises e0 =>
              cases f <;>
                simp [session_manager_run, hnew, hamb, om, createPath,
                  hres, commitCount, isCommit]
  · have hnew' : args.new = true := by
      revert hnew
      cases args.new <;> simp
    cases hres : resolveFactory isAsync args.using_ ctx.app with
    | error e0 =>
      rw [session_manager_run] at hbody
      simp [hnew', createPath, hres] at hbody
    | ok o =>
      cases o with
      | none =>
        rw [session_manager_run] at hbody
        simp [hnew', createPath, hres] at hbody
      | some f =>
        cases body with
        | ok =>
          cases f <;>
            simp [session_manager_run, hnew', createPath, hres, finalize,
              hexit, commitCount, isCommit]
        | raises e0 =>
          cases f <;>
            simp [session_manager_run, hnew', createPath, hres,
              commitCount, isCommit]

/-- Witness for C6: a sync scope over plain factory 4 with
`on_exit='commit'` and a successful body commits exactly once. -/
theorem C6_commit_exactly_once_witness :
    commitCount
      (session_manager_run false
        ⟨some (.plain 4), false, .create, some .commit, none⟩
        ⟨none, none⟩ .ok none).events = 1 :=
  C6_commit_exactly_once false
    ⟨some (.plain 4), false, .create, some .commit, none⟩
    ⟨none, none⟩ .ok none rfl rfl

/-- C7: every run that created a session from factory `f` restores the
ambient-session context variable to its prior value and then releases the
session — through the scoped factory's `remove` hook when `f` is scoped,
by `close` otherwise — on every exit path; a run that found an ambient
session releases nothing. -/
theorem C7_release_on_exit (isAsync : Bool) (args : Args) (ctx : Ctx)
    (body : BodyRes) (ferr : Option Exc) :
    (∀ f, createdFactory isAsync args ctx = some f →
      ((session_manager_run isAsync args ctx body ferr).finalAmbient =
          ctx.ambient ∧
       lastTwo (session_manager_run isAsync args ctx body ferr).events =
         [.ctxReset ctx.ambient, releaseEvent f])) ∧
    (∀ a, args.new = false → ctx.ambient = some a →
      releaseCount
        (session_manager_run isAsync args ctx body ferr).events = 0) := by
  constructor
  · intro f hf
    obtain ⟨hrun, hres⟩ := run_createPath isAsync args ctx body ferr f hf
    rw [hrun]
    unfold createPath
    rw [hres]
    cases body with
    | ok =>
      cases hoe : args.on_exit with
      | none =>
        cases f <;>
          simp [finalize, hoe, lastTwo, releaseEvent, Factory.sid]
      | some a0 =>
        cases a0 <;> cases f <;>
          simp [finalize, hoe, lastTwo, releaseEvent, Factory.sid]
    | raises e0 =>
      cases f <;> simp [lastTwo, releaseEvent, Factory.sid]
  · intro a hnew hamb
    by_cases hk : a.kind = kindOf isAsync
    · cases body with
      | ok =>
        cases hoe : args.on_exit with
        | none =>
          simp [session_manager_run, hnew, hamb, hk, finalize, hoe,
            releaseCount]
        | some a0 =>
          cases a0 <;>
            simp [session_manager_run, hnew, hamb, hk, finalize, hoe,
              releaseCount, isRelease]
      | raises e0 =>
        simp [session_manager_run, hnew, hamb, hk, releaseCount]
    · simp [session_manager_run, hnew, hamb, hk, releaseCount]

/-- Witness for C7: a sync scope over scoped factory 9 whose body raises
still resets the context to its prior value (none) and recycles the
session through the factory's removal hook. -/
theorem C7_release_on_exit_witness :
    (session_manager_run false ⟨some (.scoped 9), false, .create, none, none⟩
        ⟨none, none⟩ (.raises (.userExc 1)) none).finalAmbient = none ∧
    lastTwo
      (session_manager_run false ⟨some (.scoped 9), false, .create, none, none⟩
        ⟨none, none⟩ (.raises (.userExc 1)) none).events =
      [.ctxReset none, .removeOp (.scoped 9)] :=
  (C7_release_on_exit false ⟨some (.scoped 9), false, .create, none, none⟩
    ⟨none, none⟩ (.raises (.userExc 1)) none).1 (.scoped 9) rfl

/-- C4: the claim fails against the code.  The errors module defines no
`SessionError`, so the `from`-import on sessions.py line 30 fails with an
`ImportError` naming `SessionError`; moreover, granting the import, the
sync `session_manager` leaves its local `factory` unassigned when neither
a `using` factory nor an application is available and so raises
`UnboundLocalError` before its `SessionError` check, while the async
variant (whose `factory` is initialised to `None`) does reach the
`SessionError` raise. -/
theorem C4_session_error_unavailable :
    importFrom errorsModuleNames sessionsErrorsImport =
      .error "SessionError" ∧
    (session_manager_run false ⟨none, false, .create, none, none⟩
        ⟨none, none⟩ .ok none).outcome =
      some ⟨.unboundLocal "factory", none⟩ ∧
    (session_manager_run true ⟨none, false, .create, none, none⟩
        ⟨none, none⟩ .ok none).outcome = some ⟨.sessionErr, none⟩ :=
  ⟨rfl, rfl, rfl⟩

/-- C5: `commit(expire=e)` leaves `expire_on_commit` untouched when `e`
is `None` (the parent commit runs on the session as-is); otherwise the
override is installed for the inner commit and the prior value is always
restored afterwards, whether or not the inner commit raises — provided
the inner commit itself does not alter the flag, the post-call flag
always equals the pre-call flag. -/
theorem C5_commit_expire_restored
    (inner : SessState → Option Exc × SessState)
    (hinner : ∀ t, ((inner t).2).expire_on_commit = t.expire_on_commit)
    (s : SessState) (expire : Option Bool) :
    ((Session.commit inner s expire).2).expire_on_commit =
      s.expire_on_commit ∧
    Session.commit inner s none = inner s ∧
    (∀ v, Session.commit inner s (some v) =
      ((inner { s with expire_on_commit := v }).1,
       { (inner { s with expire_on_commit := v }).2 with
           expire_on_commit := s.expire_on_commit })) := by
  refine ⟨?_, rfl, fun v => rfl⟩
  cases expire with
  | none => exact hinner s
  | some v => rfl

/-- Witness for C5: with an inner commit that raises, a
`commit(expire=False)` on a session configured with
`expire_on_commit=True` still restores the flag to `True`. -/
theorem C5_commit_expire_restored_witness :
    ((Session.commit innerBoom ⟨true, 0⟩ (some false)).2).expire_on_commit =
      true ∧
    (Session.commit innerBoom ⟨true, 0⟩ (some false)).1 =
      some (.userExc 1) :=
  ⟨(C5_commit_expire_restored innerBoom (fun _ => rfl) ⟨true, 0⟩
      (some false)).1, rfl⟩

/-- C9: the `bulk` context manager publishes the newly created (empty)
bulk in the ambient bulk context for the duration of the body, resets the
context variable to its prior value on every exit path (the exception, if
any, propagating unchanged), and leaves the registry's entries exactly as
the body left them — nothing is cleared on exit. -/
theorem C9_bulk_context_reset (proxy_reference : Bool)
    (prior : Option BulkState)
    (body : BulkState → Option Exc × BulkState) :
    (Session.bulk_run proxy_reference prior body).ambientAtBody =
      some ⟨proxy_reference, []⟩ ∧
    (Session.bulk_run proxy_reference prior body).finalAmbient = prior ∧
    (Session.bulk_run proxy_reference prior body).err =
      (body ⟨proxy_reference, []⟩).1 ∧
    (Session.bulk_run proxy_reference prior body).bulk =
      (body ⟨proxy_reference, []⟩).2 :=
  ⟨rfl, rfl, rfl, rfl⟩

/-- Writing a field and reading it back through the field map yields the
written value. -/
theorem getField_setField (fs : Fields) (name : String) (v : Nat) :
    getField (setField fs name v) name = some v := by
  induction fs with
  | nil => simp [setField, getField, List.find?]
  | cons kv rest ih =>
    by_cases h : kv.1 = name
    · simp [setField, h, getField, List.find?]
    · simp only [setField, if_neg h]
      simp only [getField] at ih ⊢
      rw [List.find?_cons_of_neg]
      · exact ih
      · simp [h]

/-- C8: two reference entries registered in the same bulk scope created
with `proxy_reference=True` that denote the same resource identity share
a single instance: their proxies hold the same target object, after
`resolve()` every attribute read through either proxy agrees, and a field
set through one proxy is observable through the other. -/
theorem C8_shared_reference (i : Ident) (db : Ident → Option Fields)
    (name : String) (v : Nat)
    (hname : MANAGED_ATTRS.contains name = false) :
    (twoRefs i).2.1.proxy_target = (twoRefs i).2.2.proxy_target ∧
    (∀ nm,
      Proxy.getattr (resolveReferences (twoRefs i).1 db).arena
          (twoRefs i).2.1 nm =
        Proxy.getattr (resolveReferences (twoRefs i).1 db).arena
          (twoRefs i).2.2 nm) ∧
    (∀ arena2,
      Proxy.setattr (resolveReferences (twoRefs i).1 db).arena
          (twoRefs i).2.1 name v = .delegated arena2 →
      Proxy.getattr arena2 (twoRefs i).2.2 name = .delegated v) := by
  have h2 : twoRefs i =
      (⟨true, [(i, 0)], [[]],
        [(i, ⟨none, some 0, none⟩), (i, ⟨none, some 0, none⟩)]⟩,
       ⟨none, some 0, none⟩, ⟨none, some 0, none⟩) := by
    simp [twoRefs, registerReference, BulkReg.empty, List.find?]
  have harena : (resolveReferences (twoRefs i).1 db).arena =
      (match db i with
       | some fs => [fs]
       | none => [[]]) := by
    rw [h2]
    cases hdb : db i <;> simp [resolveReferences, hdb]
  have hname' : name ∉ MANAGED_ATTRS := by
    simpa using hname
  refine ⟨by rw [h2], fun nm => by rw [h2], ?_⟩
  intro arena2 hset
  rw [harena] at hset
  rw [h2] at hset ⊢
  cases hdb : db i with
  | none =>
    rw [hdb] at hset
    simp [Proxy.setattr, hname', Proxy.proxyRef] at hset
    subst hset
    simp [Proxy.getattr, hname', Proxy.proxyRef, getField_setField]
  | some fs =>
    rw [hdb] at hset
    simp [Proxy.setattr, hname', Proxy.proxyRef] at hset
    subst hset
    simp [Proxy.getattr, hname', Proxy.proxyRef, getField_setField]

/-- Witness for C8: in a proxying bulk scope, after resolving identity
`(1, 42)` against a one-row database and setting `status := 5` through
the first reference, the second reference reads `status = 5`. -/
theorem C8_shared_reference_witness :
    Proxy.getattr [[("id", 42), ("status", 5)]] (twoRefs ⟨1, 42⟩).2.2
        "status" = .delegated 5 :=
  (C8_shared_reference ⟨1, 42⟩ dbOne "status" 5 rfl).2.2
    [[("id", 42), ("status", 5)]] rfl

end Plateforme
